import Mathlib

/-
Shallow embedding of src/src/components/BaseDropdown.vue (the only source
file of the repository).  The script-setup section of that component is a
small interaction state machine: an open/closed flag, a list of rendered
menu-item button elements (rebuilt on every open transition by a
watchEffect), a document-level click listener installed through a
zero-delay setTimeout, the currently focused element, and the events
emitted to the parent.  Every definition below is translated directly from
the corresponding function of the source file.
-/

namespace Dropdown

/-- A rendered menu-item button element.  The `idx` field models DOM element
identity (each li renders its own button), `textContent` models the
element's textContent string (the DOM never yields null textContent for an
element, and JavaScript truthiness of a string is just non-emptiness). -/
structure ButtonEl where
  idx : Nat
  textContent : String
deriving DecidableEq, Repr

/-- What currently holds keyboard focus, as far as the component moves it:
either the principal (trigger) input element or one of the menu-item
buttons. -/
inductive Focused where
  | principal
  | menuButton (b : ButtonEl)
deriving DecidableEq, Repr

/-- The target of a DOM event, as inspected by the handlers with
`event.target instanceof HTMLButtonElement`: either a menu-item button
element or some other element (the trigger is an input element, hence not
an HTMLButtonElement). -/
inductive EventTarget where
  | button (b : ButtonEl)
  | other (n : Nat)
deriving DecidableEq, Repr

/-- Events emitted to the parent component, see `defineEmits`.  The
second constructor carries an identifier of the originating FocusEvent. -/
inductive EmitEv where
  | updateModelValue (v : String)
  | principalButtonFocusIn (evId : Nat)
deriving DecidableEq, Repr

/-- Keys distinguished by handleMenuButtonKeyInput. -/
inductive Key where
  | arrowUp
  | arrowDown
  | escape
  | tab
  | otherKey
deriving DecidableEq, Repr

/-- The mutable state of one BaseDropdown instance together with the
observable effects the component performs:
`isMenuOpened` is the ref of the same name; `menuItemButtons` the ref of
the same name; `principalMenu` records whether the `principalMenu` ref is
non-null (the trigger element is mounted); `docListener` whether
closeMenuOnOutsideClick is currently registered on the document;
`pendingInstall` whether a zero-delay setTimeout that will register it is
scheduled; `focused` where the component last placed focus; `emitted`
the list of events emitted so far, in order. -/
structure DropdownState where
  isMenuOpened : Bool
  menuItemButtons : List ButtonEl
  principalMenu : Bool
  docListener : Bool
  pendingInstall : Bool
  focused : Option Focused
  emitted : List EmitEv
deriving DecidableEq, Repr

/-- isSelectedOption from the source: `menuOption === props.modelValue`,
JavaScript strict string equality. -/
def isSelectedOption (menuOption : String) (modelValue : String) : Bool :=
  menuOption == modelValue

/-- handlePrincipalButtonFocusIn from the source: emit principalButtonFocusIn
with the focus event exactly when props.isErrorShown is true. -/
def handlePrincipalButtonFocusIn (isErrorShown : Bool) (evId : Nat)
    (s : DropdownState) : DropdownState :=
  if isErrorShown then
    { s with emitted := s.emitted ++ [EmitEv.principalButtonFocusIn evId] }
  else s

/-- openMenu from the source: set isMenuOpened; the focus move happens in
the watchEffect (see `effectBody`). -/
def openMenu (s : DropdownState) : DropdownState :=
  { s with isMenuOpened := true }

/-- closeMenu from the source: clear isMenuOpened and remove the document
click listener. -/
def closeMenu (s : DropdownState) : DropdownState :=
  { s with isMenuOpened := false, docListener := false }

/-- focusFirstMenuButton from the source: `menuItemButtons.value[0]?.focus()`
with optional chaining, hence a no-op on an empty list. -/
def focusFirstMenuButton (s : DropdownState) : DropdownState :=
  match s.menuItemButtons.head? with
  | some b => { s with focused := some (Focused.menuButton b) }
  | none => s

/-- The `if (principalMenu.value) principalMenu.value.focus()` fragment
shared by handleMenuButtonClick and the Escape branch of
handleMenuButtonKeyInput. -/
def focusPrincipal (s : DropdownState) : DropdownState :=
  if s.principalMenu then { s with focused := some Focused.principal } else s

/-- handlePrincipalButtonClick from the source: toggle. -/
def handlePrincipalButtonClick (s : DropdownState) : DropdownState :=
  if s.isMenuOpened then closeMenu s else openMenu s

/-- handleMenuButtonClick from the source: if the event target is a button
element with truthy (non-empty) textContent, emit update:modelValue with
the trimmed text; then unconditionally closeMenu and, if the trigger is
mounted, focus it. -/
def handleMenuButtonClick (target : EventTarget) (s : DropdownState) :
    DropdownState :=
  let s1 :=
    match target with
    | EventTarget.button b =>
        if b.textContent = "" then s
        else { s with emitted :=
                 s.emitted ++ [EmitEv.updateModelValue b.textContent.trim] }
    | EventTarget.other _ => s
  focusPrincipal (closeMenu s1)

/-- Index of the first occurrence of a button element in a list, mirroring
Array.prototype.indexOf's strict-equality search before its -1 encoding. -/
def indexOfFirst (l : List ButtonEl) (b : ButtonEl) : Option Nat :=
  match l with
  | [] => none
  | x :: xs => if x = b then some 0 else (indexOfFirst xs b).map (· + 1)

/-- `menuItemButtons.value.indexOf(currentButton)`: first index or -1. -/
def jsIndexOf (l : List ButtonEl) (b : ButtonEl) : Int :=
  match indexOfFirst l b with
  | some i => (i : Int)
  | none => -1

/-- JavaScript array indexing `l[i]` with an integer index: the element when
the index is in range, undefined (none) otherwise. -/
def jsGet (l : List ButtonEl) (i : Int) : Option ButtonEl :=
  if 0 ≤ i then l[i.toNat]? else none

/-- `menuItemButtons.value[i].focus()`: focuses the element at index i, or
throws a TypeError (modelled as none) when `l[i]` is undefined. -/
def focusIndex (l : List ButtonEl) (i : Int) (s : DropdownState) :
    Option DropdownState :=
  match jsGet l i with
  | some b => some { s with focused := some (Focused.menuButton b) }
  | none => none

/-- handleMenuButtonKeyInput from the source.  The outer guard requires the
event target to be an HTMLButtonElement; the four key tests are sequential
ifs on distinct key strings, so at most one branch can run.  The result is
none when the handler throws (array access yielding undefined followed by
.focus()). -/
def handleMenuButtonKeyInput (key : Key) (target : EventTarget)
    (s : DropdownState) : Option DropdownState :=
  match target with
  | EventTarget.other _ => some s
  | EventTarget.button currentButton =>
      let btns := s.menuItemButtons
      let currentButtonIndex := jsIndexOf btns currentButton
      let lastIndex : Int := (btns.length : Int) - 1
      match key with
      | Key.arrowUp =>
          let step1 :=
            if 0 < currentButtonIndex ∧ currentButtonIndex ≤ lastIndex then
              focusIndex btns (currentButtonIndex - 1) s
            else some s
          match step1 with
          | none => none
          | some s1 =>
              if currentButtonIndex = 0 then focusIndex btns lastIndex s1
              else some s1
      | Key.arrowDown =>
          let step1 :=
            if 0 ≤ currentButtonIndex ∧ currentButtonIndex < lastIndex then
              focusIndex btns (currentButtonIndex + 1) s
            else some s
          match step1 with
          | none => none
          | some s1 =>
              if currentButtonIndex = lastIndex then focusIndex btns 0 s1
              else some s1
      | Key.escape => some (focusPrincipal (closeMenu s))
      | Key.tab => some (closeMenu s)
      | Key.otherKey => some s

/-- closeMenuOnOutsideClick from the source: close unless the event target
is a button contained in the current menuItemButtons list. -/
def closeMenuOnOutsideClick (target : EventTarget) (s : DropdownState) :
    DropdownState :=
  let isMenuButton :=
    match target with
    | EventTarget.button b => s.menuItemButtons.contains b
    | EventTarget.other _ => false
  if isMenuButton then s else closeMenu s

/-- The menu-item buttons rendered for the options starting at index i:
one li per option in order.  The template interpolates the option and then
a conditional check-mark icon, and Vue's default whitespace condensing
keeps the text node between them as a single space, so each rendered
button's textContent is the option followed by one space (never the empty
string, even for the empty option). -/
def renderButtonsFrom (i : Nat) : List String → List ButtonEl
  | [] => []
  | o :: rest => ButtonEl.mk i (o ++ " ") :: renderButtonsFrom (i + 1) rest

/-- The buttons the watchEffect collects after an open transition: one
button per rendered li (one li per option, in order; BaseButton renders a
button element, so querySelector finds one for every item). -/
def renderButtons (opts : List String) : List ButtonEl :=
  renderButtonsFrom 0 opts

/-- Body of the watchEffect when isMenuOpened is true: rebuild
menuItemButtons from the rendered items, focus the first button, and
schedule (setTimeout, zero delay) the installation of the document click
listener. -/
def effectBody (opts : List String) (s : DropdownState) : DropdownState :=
  let s1 := { s with menuItemButtons := renderButtons opts }
  let s2 := focusFirstMenuButton s1
  { s2 with pendingInstall := true }

/-- An open transition driven through the code path of the source: openMenu
followed by the watchEffect body (which runs before any later event). -/
def openAndRender (opts : List String) (s : DropdownState) : DropdownState :=
  effectBody opts (openMenu s)

/-- The scheduled zero-delay timer firing: it registers the document click
listener.  A zero-delay timeout queued while handling one user interaction
runs before the next user interaction is dispatched. -/
def flushTimer (s : DropdownState) : DropdownState :=
  if s.pendingInstall then
    { s with pendingInstall := false, docListener := true }
  else s

/-- onBeforeUnmount from the source: remove the document click listener. -/
def unmountCleanup (s : DropdownState) : DropdownState :=
  { s with docListener := false }

/-- Where a click lands: on the trigger input, on a menu-item button, or on
any other element of the document. -/
inductive ClickTarget where
  | trigger
  | menuButton (b : ButtonEl)
  | elsewhere (n : Nat)
deriving DecidableEq, Repr

/-- The event.target seen by the document-level listener for a click.  The
trigger is an input element, not an HTMLButtonElement. -/
def clickEventTarget : ClickTarget → EventTarget
  | ClickTarget.trigger => EventTarget.other 0
  | ClickTarget.menuButton b => EventTarget.button b
  | ClickTarget.elsewhere n => EventTarget.other (n + 1)

/-- One user interaction dispatched to a live component: a click (the
options list current at that moment is carried along, since an open
transition rebuilds the handle set from it), a key event on a menu-item
button, or an ArrowDown keyup on the trigger (bound to openMenu in the
template). -/
inductive Ev where
  | click (t : ClickTarget) (opts : List String)
  | keyMenu (k : Key) (t : EventTarget)
  | triggerDown (opts : List String)
deriving DecidableEq, Repr

/-- The handler of the element a click lands on: the trigger toggles, a
menu-item button runs handleMenuButtonClick, any other element has no
handler of this component. -/
def clickTargetPhase (t : ClickTarget) (s : DropdownState) : DropdownState :=
  match t with
  | ClickTarget.trigger => handlePrincipalButtonClick s
  | ClickTarget.menuButton b => handleMenuButtonClick (EventTarget.button b) s
  | ClickTarget.elsewhere _ => s

/-- The document-listener bubble phase of a click: the listener runs only
while registered. -/
def docPhase (t : ClickTarget) (s : DropdownState) : DropdownState :=
  if s.docListener then closeMenuOnOutsideClick (clickEventTarget t) s else s

/-- Vue's pre-flush watchEffect, re-run after an interaction that
transitioned isMenuOpened from false to true. -/
def maybeEffect (wasOpen : Bool) (opts : List String) (s : DropdownState) :
    DropdownState :=
  if wasOpen = false ∧ s.isMenuOpened = true then effectBody opts s else s

/-- Dispatch of one user interaction, following the browser event loop:
any zero-delay timer scheduled by the previous interaction fires first;
next the target's own handler runs; for clicks the event then bubbles to
the document listener when it is registered; finally Vue's pre-flush
watchEffect runs when this interaction transitioned the menu from closed
to open (rebuilding the handle set, focusing the first button and
scheduling the listener installation).  The result is none when a handler
throws. -/
def step (s0 : DropdownState) (e : Ev) : Option DropdownState :=
  let s := flushTimer s0
  let wasOpen := s.isMenuOpened
  match e with
  | Ev.click t opts => some (maybeEffect wasOpen opts (docPhase t (clickTargetPhase t s)))
  | Ev.keyMenu k t => handleMenuButtonKeyInput k t s
  | Ev.triggerDown opts => some (maybeEffect wasOpen opts (openMenu s))

/-- The state of a freshly mounted component: menu closed, no collected
buttons, trigger mounted, no document listener, nothing scheduled, nothing
emitted. -/
def initState : DropdownState :=
  { isMenuOpened := false
    menuItemButtons := []
    principalMenu := true
    docListener := false
    pendingInstall := false
    focused := none
    emitted := [] }

/-- Run a list of user interactions from the initial state; none when some
handler threw along the way. -/
def run (evs : List Ev) : Option DropdownState :=
  List.foldlM step initState evs

/-- Listener-lifecycle invariant: a scheduled installation implies the menu
is open; a closed menu has neither a registered listener nor a scheduled
installation; an open menu has the listener registered or scheduled. -/
def Inv (s : DropdownState) : Prop :=
  (s.pendingInstall = true → s.isMenuOpened = true) ∧
  (s.isMenuOpened = false → s.docListener = false ∧ s.pendingInstall = false) ∧
  (s.isMenuOpened = true → s.docListener = true ∨ s.pendingInstall = true)

instance (s : DropdownState) : Decidable (Inv s) := by
  unfold Inv
  infer_instance

theorem Inv_of_fields {s s' : DropdownState}
    (h1 : s'.isMenuOpened = s.isMenuOpened) (h2 : s'.docListener = s.docListener)
    (h3 : s'.pendingInstall = s.pendingInstall) (hs : Inv s) : Inv s' := by
  unfold Inv at hs ⊢
  rw [h1, h2, h3]
  exact hs

theorem Inv_closed {s : DropdownState} (h1 : s.isMenuOpened = false)
    (h2 : s.docListener = false) (h3 : s.pendingInstall = false) : Inv s := by
  refine ⟨fun hp => ?_, fun _ => ⟨h2, h3⟩, fun ho => ?_⟩
  · rw [h3] at hp
    exact absurd hp (by simp)
  · rw [h1] at ho
    exact absurd ho (by simp)

theorem Inv_openPending {s : DropdownState} (h1 : s.isMenuOpened = true)
    (h3 : s.pendingInstall = true) : Inv s := by
  refine ⟨fun _ => h1, fun hc => ?_, fun _ => Or.inr h3⟩
  rw [h1] at hc
  exact absurd hc (by simp)

theorem focusIndex_fields {l : List ButtonEl} {i : Int} {s s' : DropdownState}
    (h : focusIndex l i s = some s') :
    s'.isMenuOpened = s.isMenuOpened ∧ s'.docListener = s.docListener ∧
      s'.pendingInstall = s.pendingInstall ∧
      s'.menuItemButtons = s.menuItemButtons ∧ s'.emitted = s.emitted := by
  unfold focusIndex at h
  cases hg : jsGet l i with
  | none => rw [hg] at h; exact absurd h (by simp)
  | some b =>
      rw [hg] at h
      simp only [Option.some.injEq] at h
      subst h
      exact ⟨rfl, rfl, rfl, rfl, rfl⟩

theorem keyInput_fields {k : Key} {t : EventTarget} {s s' : DropdownState}
    (h : handleMenuButtonKeyInput k t s = some s') :
    (s'.isMenuOpened = s.isMenuOpened ∧ s'.docListener = s.docListener ∧
      s'.pendingInstall = s.pendingInstall) ∨
    (s'.isMenuOpened = false ∧ s'.docListener = false ∧
      s'.pendingInstall = s.pendingInstall) := by
  cases t with
  | other n =>
      simp only [handleMenuButtonKeyInput, Option.some.injEq] at h
      subst h
      exact Or.inl ⟨rfl, rfl, rfl⟩
  | button b =>
      cases k with
      | escape =>
          simp only [handleMenuButtonKeyInput, Option.some.injEq] at h
          subst h
          unfold focusPrincipal closeMenu
          right
          split <;> exact ⟨rfl, rfl, rfl⟩
      | tab =>
          simp only [handleMenuButtonKeyInput, Option.some.injEq] at h
          subst h
          exact Or.inr ⟨rfl, rfl, rfl⟩
      | otherKey =>
          simp only [handleMenuButtonKeyInput, Option.some.injEq] at h
          subst h
          exact Or.inl ⟨rfl, rfl, rfl⟩
      | arrowUp =>
          left
          simp only [handleMenuButtonKeyInput] at h
          split at h
          · exact absurd h (by simp)
          · rename_i s1 hs1
            have h1 :
                s1.isMenuOpened = s.isMenuOpened ∧ s1.docListener = s.docListener ∧
                  s1.pendingInstall = s.pendingInstall := by
              split at hs1
              · obtain ⟨a, b2, c, _, _⟩ := focusIndex_fields hs1
                exact ⟨a, b2, c⟩
              · simp only [Option.some.injEq] at hs1
                subst hs1
                exact ⟨rfl, rfl, rfl⟩
            split at h
            · obtain ⟨a, b2, c, _, _⟩ := focusIndex_fields h
              exact ⟨a.trans h1.1, b2.trans h1.2.1, c.trans h1.2.2⟩
            · simp only [Option.some.injEq] at h
              subst h
              exact h1
      | arrowDown =>
          left
          simp only [handleMenuButtonKeyInput] at h
          split at h
          · exact absurd h (by simp)
          · rename_i s1 hs1
            have h1 :
                s1.isMenuOpened = s.isMenuOpened ∧ s1.docListener = s.docListener ∧
                  s1.pendingInstall = s.pendingInstall := by
              split at hs1
              · obtain ⟨a, b2, c, _, _⟩ := focusIndex_fields hs1
                exact ⟨a, b2, c⟩
              · simp only [Option.some.injEq] at hs1
                subst hs1
                exact ⟨rfl, rfl, rfl⟩
            split at h
            · obtain ⟨a, b2, c, _, _⟩ := focusIndex_fields h
              exact ⟨a.trans h1.1, b2.trans h1.2.1, c.trans h1.2.2⟩
            · simp only [Option.some.injEq] at h
              subst h
              exact h1

theorem inv_flushTimer {s : DropdownState} (hs : Inv s) :
    Inv (flushTimer s) ∧ (flushTimer s).pendingInstall = false := by
  by_cases hp : s.pendingInstall = true
  · have ho : s.isMenuOpened = true := hs.1 hp
    constructor
    · unfold Inv flushTimer
      simp [hp, ho]
    · unfold flushTimer
      simp [hp]
  · rw [Bool.not_eq_true] at hp
    have hid : flushTimer s = s := by
      unfold flushTimer
      rw [hp]
      simp
    rw [hid]
    exact ⟨hs, hp⟩

theorem menuClick_fields (t : EventTarget) (s : DropdownState) :
    (handleMenuButtonClick t s).isMenuOpened = false ∧
      (handleMenuButtonClick t s).docListener = false ∧
      (handleMenuButtonClick t s).pendingInstall = s.pendingInstall := by
  cases t <;>
    simp only [handleMenuButtonClick, focusPrincipal, closeMenu] <;>
    split_ifs <;> exact ⟨rfl, rfl, rfl⟩

theorem effectBody_fields (opts : List String) (s : DropdownState) :
    (effectBody opts s).isMenuOpened = s.isMenuOpened ∧
      (effectBody opts s).docListener = s.docListener ∧
      (effectBody opts s).pendingInstall = true := by
  unfold effectBody focusFirstMenuButton
  dsimp only
  split <;> exact ⟨rfl, rfl, rfl⟩

theorem maybeEffect_stale {wasOpen : Bool} {opts : List String}
    {s : DropdownState} (h : wasOpen = true ∨ s.isMenuOpened = false) :
    maybeEffect wasOpen opts s = s := by
  unfold maybeEffect
  rcases h with h | h <;> rw [if_neg]
  · rintro ⟨c1, _⟩
    rw [h] at c1
    exact absurd c1 (by simp)
  · rintro ⟨_, c2⟩
    rw [h] at c2
    exact absurd c2 (by simp)

theorem maybeEffect_opening {opts : List String} {s : DropdownState}
    (h : s.isMenuOpened = true) :
    maybeEffect false opts s = effectBody opts s := by
  unfold maybeEffect
  rw [if_pos ⟨rfl, h⟩]

theorem docPhase_silent {t : ClickTarget} {s : DropdownState}
    (h : s.docListener = false) : docPhase t s = s := by
  unfold docPhase
  rw [h]
  simp

theorem Inv_effectOpen {opts : List String} {s : DropdownState}
    (h : s.isMenuOpened = true) : Inv (effectBody opts s) :=
  Inv_openPending ((effectBody_fields _ _).1.trans h) (effectBody_fields _ _).2.2

theorem step_inv {s : DropdownState} {e : Ev} {s' : DropdownState}
    (hs : Inv s) (h : step s e = some s') : Inv s' := by
  obtain ⟨hf, hfp⟩ := inv_flushTimer hs
  cases e with
  | keyMenu k t =>
      simp only [step] at h
      rcases keyInput_fields h with ⟨a, b, c⟩ | ⟨a, b, c⟩
      · exact Inv_of_fields a b c hf
      · exact Inv_closed a b (c.trans hfp)
  | triggerDown opts =>
      simp only [step, Option.some.injEq] at h
      subst h
      by_cases ho : (flushTimer s).isMenuOpened = true
      · rw [maybeEffect_stale (Or.inl ho)]
        exact Inv_of_fields (s := flushTimer s) (by rw [ho]; rfl) rfl rfl hf
      · rw [Bool.not_eq_true] at ho
        rw [ho, maybeEffect_opening rfl]
        exact Inv_effectOpen rfl
  | click t opts =>
      simp only [step, Option.some.injEq] at h
      subst h
      cases t with
      | trigger =>
          by_cases ho : (flushTimer s).isMenuOpened = true
          · have e1 : clickTargetPhase ClickTarget.trigger (flushTimer s)
                = closeMenu (flushTimer s) := by
              unfold clickTargetPhase handlePrincipalButtonClick
              rw [ho]
              simp
            rw [e1, docPhase_silent rfl, maybeEffect_stale (Or.inr rfl)]
            exact Inv_closed rfl rfl hfp
          · rw [Bool.not_eq_true] at ho
            have e1 : clickTargetPhase ClickTarget.trigger (flushTimer s)
                = openMenu (flushTimer s) := by
              unfold clickTargetPhase handlePrincipalButtonClick
              rw [ho]
              simp
            have hl : (openMenu (flushTimer s)).docListener = false :=
              (hf.2.1 ho).1
            rw [e1, docPhase_silent hl, ho, maybeEffect_opening rfl]
            exact Inv_effectOpen rfl
      | menuButton b =>
          have e1 := menuClick_fields (EventTarget.button b) (flushTimer s)
          have e0 : clickTargetPhase (ClickTarget.menuButton b) (flushTimer s)
              = handleMenuButtonClick (EventTarget.button b) (flushTimer s) := rfl
          rw [e0, docPhase_silent e1.2.1, maybeEffect_stale (Or.inr e1.1)]
          exact Inv_closed e1.1 e1.2.1 (e1.2.2.trans hfp)
      | elsewhere n =>
          have e0 : clickTargetPhase (ClickTarget.elsewhere n) (flushTimer s)
              = flushTimer s := rfl
          rw [e0]
          by_cases hl : (flushTimer s).docListener = true
          · have e2 : docPhase (ClickTarget.elsewhere n) (flushTimer s)
                = closeMenu (flushTimer s) := by
              unfold docPhase
              rw [if_pos hl]
              rfl
            rw [e2, maybeEffect_stale (Or.inr rfl)]
            exact Inv_closed rfl rfl hfp
          · rw [Bool.not_eq_true] at hl
            rw [docPhase_silent hl]
            by_cases ho : (flushTimer s).isMenuOpened = true
            · rw [maybeEffect_stale (Or.inl ho)]
              exact hf
            · rw [Bool.not_eq_true] at ho
              rw [maybeEffect_stale (Or.inr ho)]
              exact hf

theorem foldlM_inv {evs : List Ev} :
    ∀ {s s' : DropdownState}, Inv s →
      List.foldlM step s evs = some s' → Inv s' := by
  induction evs with
  | nil =>
      intro s s' hs h
      simp only [List.foldlM] at h
      cases h
      exact hs
  | cons e evs ih =>
      intro s s' hs h
      simp only [List.foldlM] at h
      cases hstep : step s e with
      | none =>
          rw [hstep] at h
          simp at h
      | some s1 =>
          rw [hstep] at h
          simp only [Option.bind_eq_bind, Option.some_bind] at h
          exact ih (step_inv hs hstep) h

theorem run_inv {evs : List Ev} {s : DropdownState} (h : run evs = some s) :
    Inv s :=
  foldlM_inv (by decide) h

theorem indexOfFirst_lt {l : List ButtonEl} {b : ButtonEl} {i : Nat}
    (h : indexOfFirst l b = some i) : i < l.length := by
  induction l generalizing i with
  | nil => exact absurd h (by simp [indexOfFirst])
  | cons x xs ih =>
      unfold indexOfFirst at h
      by_cases hx : x = b
      · rw [if_pos hx] at h
        simp only [Option.some.injEq] at h
        subst h
        simp
      · rw [if_neg hx] at h
        cases hr : indexOfFirst xs b with
        | none => rw [hr] at h; exact absurd h (by simp)
        | some j =>
            rw [hr] at h
            have h2 : j + 1 = i := by simpa using h
            have := ih hr
            simp only [List.length_cons]
            omega

theorem jsIndexOf_found {l : List ButtonEl} {b : ButtonEl} {i : Nat}
    (h : indexOfFirst l b = some i) : jsIndexOf l b = (i : Int) := by
  unfold jsIndexOf
  rw [h]

theorem jsIndexOf_notFound {l : List ButtonEl} {b : ButtonEl}
    (h : indexOfFirst l b = none) : jsIndexOf l b = -1 := by
  unfold jsIndexOf
  rw [h]

theorem renderButtonsFrom_length (i : Nat) (l : List String) :
    (renderButtonsFrom i l).length = l.length := by
  induction l generalizing i with
  | nil => rfl
  | cons o rest ih =>
      unfold renderButtonsFrom
      simp only [List.length_cons, ih]

theorem effectBody_buttons (opts : List String) (s : DropdownState) :
    (effectBody opts s).menuItemButtons = renderButtons opts := by
  unfold effectBody focusFirstMenuButton
  dsimp only
  split <;> rfl

/-- C7: isSelectedOption returns true exactly when the option string equals
the current modelValue string, under exact case-sensitive equality; empty,
whitespace-only and case-differing strings are distinct. -/
theorem claim7_isSelected_exact_equality :
    (∀ menuOption modelValue : String,
        isSelectedOption menuOption modelValue = true ↔ menuOption = modelValue) ∧
    isSelectedOption ("") (" ") = false ∧
    isSelectedOption (" ") ("") = false ∧
    isSelectedOption ("A") ("a") = false ∧
    isSelectedOption ("value") ("value") = true := by
  refine ⟨fun o m => ?_, by decide, by decide, by decide, by decide⟩
  unfold isSelectedOption
  exact beq_iff_eq

/-- C8: on a trigger focus event, the principalButtonFocusIn notification
carrying the event is emitted exactly when isErrorShown is true; when it is
false, nothing at all happens. -/
theorem claim8_error_focus_emit (isErrorShown : Bool) (evId : Nat)
    (s : DropdownState) :
    (isErrorShown = true →
        handlePrincipalButtonFocusIn isErrorShown evId s
          = { s with emitted :=
                s.emitted ++ [EmitEv.principalButtonFocusIn evId] }) ∧
    (isErrorShown = false →
        handlePrincipalButtonFocusIn isErrorShown evId s = s) := by
  constructor <;> intro h <;> unfold handlePrincipalButtonFocusIn <;>
    rw [h] <;> simp

theorem claim8_witness :
    handlePrincipalButtonFocusIn true 7 initState
      = { initState with emitted := [EmitEv.principalButtonFocusIn 7] } ∧
    handlePrincipalButtonFocusIn false 7 initState = initState :=
  ⟨(claim8_error_focus_emit true 7 initState).1 rfl,
   (claim8_error_focus_emit false 7 initState).2 rfl⟩

/-- C9: closeMenu is idempotent, emits nothing, and on an already-closed
menu with no registered listener it leaves the state entirely unchanged,
so a double close is harmless. -/
theorem claim9_closeMenu_idempotent (s : DropdownState) :
    closeMenu (closeMenu s) = closeMenu s ∧
    (closeMenu s).emitted = s.emitted ∧
    (s.isMenuOpened = false → s.docListener = false → closeMenu s = s) := by
  refine ⟨rfl, rfl, fun h1 h2 => ?_⟩
  cases s
  unfold closeMenu
  dsimp only at h1 h2 ⊢
  rw [h1, h2]

theorem claim9_witness :
    closeMenu (closeMenu initState) = closeMenu initState ∧
    (closeMenu initState).emitted = initState.emitted ∧
    closeMenu initState = initState :=
  ⟨(claim9_closeMenu_idempotent initState).1,
   (claim9_closeMenu_idempotent initState).2.1,
   (claim9_closeMenu_idempotent initState).2.2 rfl rfl⟩

/-- C10: clicking a menu-item button with empty text, or clicking where the
target is not a button element, still closes the menu and returns focus to
the trigger, but emits no update:modelValue notification at all. -/
theorem claim10_empty_text_click (s : DropdownState) (b : ButtonEl) (n : Nat)
    (hp : s.principalMenu = true) :
    (b.textContent = "" →
        handleMenuButtonClick (EventTarget.button b) s
          = { s with isMenuOpened := false, docListener := false,
                     focused := some Focused.principal }) ∧
    handleMenuButtonClick (EventTarget.other n) s
      = { s with isMenuOpened := false, docListener := false,
                 focused := some Focused.principal } := by
  constructor
  · intro ht
    unfold handleMenuButtonClick focusPrincipal closeMenu
    dsimp only
    rw [if_pos ht]
    rw [if_pos (by exact hp)]
  · unfold handleMenuButtonClick focusPrincipal closeMenu
    dsimp only
    rw [if_pos (by exact hp)]

theorem claim10_witness :
    handleMenuButtonClick (EventTarget.button ⟨0, ""⟩) initState
      = { initState with isMenuOpened := false, docListener := false,
                         focused := some Focused.principal } ∧
    handleMenuButtonClick (EventTarget.other 3) initState
      = { initState with isMenuOpened := false, docListener := false,
                         focused := some Focused.principal } :=
  ⟨(claim10_empty_text_click initState ⟨0, ""⟩ 3 rfl).1 rfl,
   (claim10_empty_text_click initState ⟨0, ""⟩ 3 rfl).2⟩

/-- Every string of the form o ++ " " is non-empty, hence truthy in the
JavaScript sense. -/
theorem append_space_ne_empty (o : String) : ¬ (o ++ " " = "") := by
  intro he
  cases o with
  | mk data =>
      have h3 := congrArg String.data he
      simp at h3

/-- Every rendered menu-item button has non-empty textContent: the template
always renders the option followed by a condensed space. -/
theorem renderButtonsFrom_text_ne {b : ButtonEl} :
    ∀ {i : Nat} {opts : List String},
      b ∈ renderButtonsFrom i opts → ¬ b.textContent = "" := by
  intro i opts
  induction opts generalizing i with
  | nil =>
      intro h
      exact absurd h (by simp [renderButtonsFrom])
  | cons o rest ih =>
      intro h
      unfold renderButtonsFrom at h
      rcases List.mem_cons.mp h with h1 | h2
      · subst h1
        exact append_space_ne_empty o
      · exact ih h2

/-- C3: for every open menu with a mounted trigger whose handle set is the
one rendered from the options, clicking any menu item (first, middle or
last) closes the menu, moves focus back to the trigger, and emits exactly
one update:modelValue notification whose payload equals the item's text
trimmed of surrounding whitespace.  The template renders each item's
textContent as its option followed by a condensed space, so the text is
never empty and the emit guard always passes, even for the empty-string
option. -/
theorem claim3_commit_emits_trimmed (opts : List String) (s : DropdownState)
    (b : ButtonEl) (hbtns : s.menuItemButtons = renderButtons opts)
    (hb : b ∈ s.menuItemButtons)
    (_ho : s.isMenuOpened = true) (hp : s.principalMenu = true) :
    handleMenuButtonClick (EventTarget.button b) s
      = { s with isMenuOpened := false, docListener := false,
                 focused := some Focused.principal,
                 emitted := s.emitted
                   ++ [EmitEv.updateModelValue b.textContent.trim] } := by
  have htext : ¬ b.textContent = "" := by
    rw [hbtns] at hb
    unfold renderButtons at hb
    exact renderButtonsFrom_text_ne hb
  unfold handleMenuButtonClick focusPrincipal closeMenu
  dsimp only
  rw [if_neg htext]
  rw [if_pos (by exact hp)]

theorem claim3_witness :
    handleMenuButtonClick (EventTarget.button ⟨1, "Beta "⟩)
        (openAndRender ["Alpha", "Beta"] initState)
      = { (openAndRender ["Alpha", "Beta"] initState) with
          isMenuOpened := false, docListener := false,
          focused := some Focused.principal,
          emitted := (openAndRender ["Alpha", "Beta"] initState).emitted
            ++ [EmitEv.updateModelValue (("Beta ").trim)] } :=
  claim3_commit_emits_trimmed ["Alpha", "Beta"]
    (openAndRender ["Alpha", "Beta"] initState) ⟨1, "Beta "⟩
    (by decide) (by decide) (by decide) (by decide)

/-- C4: from any menu item of an open menu with the trigger mounted, Escape
closes the menu and returns focus to the trigger, while Tab closes the menu
without redirecting focus anywhere. -/
theorem claim4_escape_tab_close (s : DropdownState) (b : ButtonEl)
    (_ho : s.isMenuOpened = true) (hp : s.principalMenu = true) :
    handleMenuButtonKeyInput Key.escape (EventTarget.button b) s
      = some { s with isMenuOpened := false, docListener := false,
                      focused := some Focused.principal } ∧
    handleMenuButtonKeyInput Key.tab (EventTarget.button b) s
      = some { s with isMenuOpened := false, docListener := false } := by
  constructor
  · simp only [handleMenuButtonKeyInput, focusPrincipal, closeMenu]
    rw [if_pos (by exact hp)]
  · rfl

theorem claim4_witness :
    handleMenuButtonKeyInput Key.escape (EventTarget.button ⟨1, "B "⟩)
        (openAndRender ["A", "B"] initState)
      = some { (openAndRender ["A", "B"] initState) with
               isMenuOpened := false, docListener := false,
               focused := some Focused.principal } ∧
    handleMenuButtonKeyInput Key.tab (EventTarget.button ⟨1, "B "⟩)
        (openAndRender ["A", "B"] initState)
      = some { (openAndRender ["A", "B"] initState) with
               isMenuOpened := false, docListener := false } :=
  claim4_escape_tab_close (openAndRender ["A", "B"] initState) ⟨1, "B "⟩
    (by decide) (by decide)

/-- C2: opening the menu over any configuration rebuilds the handle set to
one handle per option in order; when the options list is non-empty the
handle at index 0 receives focus (independently of the current selection,
which the open transition never reads); when it is empty the handle set is
empty and the focus-first step is a no-op that leaves focus unchanged. -/
theorem claim2_open_focuses_first (opts : List String) (s : DropdownState) :
    (openAndRender opts s).isMenuOpened = true ∧
    (openAndRender opts s).menuItemButtons.length = opts.length ∧
    (∀ o rest, opts = o :: rest →
        (openAndRender opts s).focused
          = some (Focused.menuButton ⟨0, o ++ " "⟩)) ∧
    (opts = [] →
        (openAndRender opts s).menuItemButtons = [] ∧
        (openAndRender opts s).focused = s.focused) := by
  refine ⟨(effectBody_fields _ _).1.trans rfl, ?_, ?_, ?_⟩
  · unfold openAndRender
    rw [effectBody_buttons]
    unfold renderButtons
    exact renderButtonsFrom_length 0 opts
  · intro o rest hopts
    subst hopts
    rfl
  · intro hopts
    subst hopts
    exact ⟨rfl, rfl⟩

theorem claim2_witness :
    (openAndRender ["A", "B"] initState).focused
      = some (Focused.menuButton ⟨0, "A "⟩) ∧
    (openAndRender [] initState).menuItemButtons = [] ∧
    (openAndRender [] initState).focused = initState.focused :=
  ⟨(claim2_open_focuses_first ["A", "B"] initState).2.2.1 "A" ["B"] rfl,
   ((claim2_open_focuses_first [] initState).2.2.2 rfl).1,
   ((claim2_open_focuses_first [] initState).2.2.2 rfl).2⟩

/-- C1: when the event target is the button at first-occurrence index i of
the N current handles, ArrowDown moves focus to the handle at index
(i+1) mod N and ArrowUp to the handle at index (i-1+N) mod N, wrapping at
both ends; nothing else of the state changes and the handler does not
throw. -/
theorem claim1_arrow_navigation_wraps (s : DropdownState) (b : ButtonEl)
    (i : Nat) (hfind : indexOfFirst s.menuItemButtons b = some i) :
    (∃ b2, s.menuItemButtons[(i + 1) % s.menuItemButtons.length]? = some b2 ∧
        handleMenuButtonKeyInput Key.arrowDown (EventTarget.button b) s
          = some { s with focused := some (Focused.menuButton b2) }) ∧
    (∃ b2, s.menuItemButtons[(i + s.menuItemButtons.length - 1) %
          s.menuItemButtons.length]? = some b2 ∧
        handleMenuButtonKeyInput Key.arrowUp (EventTarget.button b) s
          = some { s with focused := some (Focused.menuButton b2) }) := by
  have hN := indexOfFirst_lt hfind
  have hidx := jsIndexOf_found hfind
  constructor
  · by_cases hc : i + 1 < s.menuItemButtons.length
    · refine ⟨s.menuItemButtons.get ⟨i + 1, hc⟩, ?_, ?_⟩
      · rw [Nat.mod_eq_of_lt hc]
        simp [List.getElem?_eq_getElem hc]
      · simp only [handleMenuButtonKeyInput, hidx]
        rw [if_pos ⟨by omega, by omega⟩]
        unfold focusIndex jsGet
        rw [if_pos (by omega : (0:Int) ≤ (i:Int) + 1)]
        have ht : ((i:Int) + 1).toNat = i + 1 := by omega
        rw [ht]
        rw [List.getElem?_eq_getElem hc]
        dsimp only
        rw [if_neg (by omega :
          ¬((i:Int) = (s.menuItemButtons.length:Int) - 1))]
        rfl
    · have hi1 : i + 1 = s.menuItemButtons.length := by omega
      refine ⟨s.menuItemButtons.get ⟨0, by omega⟩, ?_, ?_⟩
      · have hm : (i + 1) % s.menuItemButtons.length = 0 := by
          rw [hi1]
          exact Nat.mod_self _
        rw [hm]
        rw [List.getElem?_eq_getElem (by omega : 0 < s.menuItemButtons.length)]
        rfl
      · simp only [handleMenuButtonKeyInput, hidx]
        rw [if_neg (by omega : ¬((0:Int) ≤ (i:Int) ∧
          (i:Int) < (s.menuItemButtons.length:Int) - 1))]
        dsimp only
        rw [if_pos (by omega :
          (i:Int) = (s.menuItemButtons.length:Int) - 1)]
        unfold focusIndex jsGet
        simp only [Int.toNat_zero, le_refl, if_pos]
        rw [List.getElem?_eq_getElem (by omega : 0 < s.menuItemButtons.length)]
        rfl
  · by_cases hz : i = 0
    · subst hz
      refine ⟨s.menuItemButtons.get ⟨s.menuItemButtons.length - 1, by omega⟩,
        ?_, ?_⟩
      · have hm : (0 + s.menuItemButtons.length - 1) % s.menuItemButtons.length
            = s.menuItemButtons.length - 1 := by
          rw [Nat.zero_add]
          exact Nat.mod_eq_of_lt (by omega)
        rw [hm]
        rw [List.getElem?_eq_getElem
          (by omega : s.menuItemButtons.length - 1 < s.menuItemButtons.length)]
        rfl
      · simp only [handleMenuButtonKeyInput, hidx]
        rw [if_neg (by omega : ¬((0:Int) < ((0:Nat):Int) ∧
          ((0:Nat):Int) ≤ (s.menuItemButtons.length:Int) - 1))]
        dsimp only
        rw [if_pos (by omega : ((0:Nat):Int) = 0)]
        unfold focusIndex jsGet
        rw [if_pos (by omega : (0:Int) ≤ (s.menuItemButtons.length:Int) - 1)]
        have ht : ((s.menuItemButtons.length:Int) - 1).toNat
            = s.menuItemButtons.length - 1 := by omega
        rw [ht]
        rw [List.getElem?_eq_getElem
          (by omega : s.menuItemButtons.length - 1 < s.menuItemButtons.length)]
        rfl
    · refine ⟨s.menuItemButtons.get ⟨i - 1, by omega⟩, ?_, ?_⟩
      · have hm : (i + s.menuItemButtons.length - 1) % s.menuItemButtons.length
            = i - 1 := by
          have h1 : i + s.menuItemButtons.length - 1
              = (i - 1) + s.menuItemButtons.length := by omega
          rw [h1, Nat.add_mod_right]
          exact Nat.mod_eq_of_lt (by omega)
        rw [hm]
        rw [List.getElem?_eq_getElem (by omega : i - 1 < s.menuItemButtons.length)]
        rfl
      · simp only [handleMenuButtonKeyInput, hidx]
        rw [if_pos (⟨by omega, by omega⟩ : (0:Int) < (i:Int) ∧
          (i:Int) ≤ (s.menuItemButtons.length:Int) - 1)]
        unfold focusIndex jsGet
        rw [if_pos (by omega : (0:Int) ≤ (i:Int) - 1)]
        have ht : ((i:Int) - 1).toNat = i - 1 := by omega
        rw [ht]
        rw [List.getElem?_eq_getElem (by omega : i - 1 < s.menuItemButtons.length)]
        dsimp only
        rw [if_neg (by omega : ¬((i:Int) = 0))]
        rfl

theorem claim1_witness :
    (∃ b2, (openAndRender ["A", "B", "C"] initState).menuItemButtons[(2 + 1) %
          (openAndRender ["A", "B", "C"] initState).menuItemButtons.length]?
        = some b2 ∧
        handleMenuButtonKeyInput Key.arrowDown (EventTarget.button ⟨2, "C "⟩)
            (openAndRender ["A", "B", "C"] initState)
          = some { (openAndRender ["A", "B", "C"] initState) with
                   focused := some (Focused.menuButton b2) }) ∧
    (∃ b2, (openAndRender ["A", "B", "C"] initState).menuItemButtons[(2 +
          (openAndRender ["A", "B", "C"] initState).menuItemButtons.length - 1) %
          (openAndRender ["A", "B", "C"] initState).menuItemButtons.length]?
        = some b2 ∧
        handleMenuButtonKeyInput Key.arrowUp (EventTarget.button ⟨2, "C "⟩)
            (openAndRender ["A", "B", "C"] initState)
          = some { (openAndRender ["A", "B", "C"] initState) with
                   focused := some (Focused.menuButton b2) }) :=
  claim1_arrow_navigation_wraps (openAndRender ["A", "B", "C"] initState)
    ⟨2, "C "⟩ 2 (by decide)

/-- C6 as stated is refuted by the empty handle set: an ArrowDown whose
target is a button element while menuItemButtons is empty makes the code
evaluate menuItemButtons.value[0].focus() on undefined (currentButtonIndex
and lastIndex are both -1), a TypeError rather than a no-op.  The state
below is exactly the one reached by opening the menu over an empty options
list. -/
theorem claim6_counterexample :
    handleMenuButtonKeyInput Key.arrowDown (EventTarget.button ⟨0, "x"⟩)
        (openAndRender [] initState) = none := by
  decide

/-- C6 (amended): an arrow-key event whose button target is not found in
the current handle set is a no-op for ArrowUp always and for ArrowDown
whenever the handle set is non-empty, and any key event whose target is
not a button element is a no-op; but ArrowDown with a button target and an
empty handle set throws instead of being a no-op. -/
theorem claim6_unknown_target_noop (s : DropdownState) (b : ButtonEl)
    (hfind : indexOfFirst s.menuItemButtons b = none) :
    handleMenuButtonKeyInput Key.arrowUp (EventTarget.button b) s = some s ∧
    (s.menuItemButtons ≠ [] →
        handleMenuButtonKeyInput Key.arrowDown (EventTarget.button b) s
          = some s) ∧
    (s.menuItemButtons = [] →
        handleMenuButtonKeyInput Key.arrowDown (EventTarget.button b) s
          = none) ∧
    (∀ k n, handleMenuButtonKeyInput k (EventTarget.other n) s = some s) := by
  have hidx := jsIndexOf_notFound hfind
  refine ⟨?_, ?_, ?_, fun k n => rfl⟩
  · simp only [handleMenuButtonKeyInput, hidx]
    rw [if_neg (by omega : ¬((0:Int) < -1 ∧
      (-1:Int) ≤ (s.menuItemButtons.length:Int) - 1))]
    dsimp only
    rw [if_neg (by omega : ¬((-1:Int) = 0))]
  · intro hne
    have hlen : 0 < s.menuItemButtons.length := List.length_pos.mpr hne
    simp only [handleMenuButtonKeyInput, hidx]
    rw [if_neg (by omega : ¬((0:Int) ≤ -1 ∧
      (-1:Int) < (s.menuItemButtons.length:Int) - 1))]
    dsimp only
    rw [if_neg (by omega : ¬((-1:Int) = (s.menuItemButtons.length:Int) - 1))]
  · intro hemp
    simp only [handleMenuButtonKeyInput, hidx]
    rw [if_neg (by omega : ¬((0:Int) ≤ -1 ∧
      (-1:Int) < (s.menuItemButtons.length:Int) - 1))]
    dsimp only
    rw [if_pos (show (-1:Int) = (s.menuItemButtons.length:Int) - 1 by
      rw [hemp]; decide)]
    unfold focusIndex jsGet
    rw [hemp]
    rfl

theorem claim6_witness :
    handleMenuButtonKeyInput Key.arrowUp (EventTarget.button ⟨9, "Z"⟩)
        (openAndRender ["A", "B"] initState)
      = some (openAndRender ["A", "B"] initState) ∧
    handleMenuButtonKeyInput Key.arrowDown (EventTarget.button ⟨9, "Z"⟩)
        (openAndRender ["A", "B"] initState)
      = some (openAndRender ["A", "B"] initState) ∧
    handleMenuButtonKeyInput Key.otherKey (EventTarget.other 4)
        (openAndRender ["A", "B"] initState)
      = some (openAndRender ["A", "B"] initState) :=
  ⟨(claim6_unknown_target_noop (openAndRender ["A", "B"] initState)
      ⟨9, "Z"⟩ (by decide)).1,
   (claim6_unknown_target_noop (openAndRender ["A", "B"] initState)
      ⟨9, "Z"⟩ (by decide)).2.1 (by decide),
   (claim6_unknown_target_noop (openAndRender ["A", "B"] initState)
      ⟨9, "Z"⟩ (by decide)).2.2.2 Key.otherKey 4⟩

theorem flushTimer_isMenuOpened (s : DropdownState) :
    (flushTimer s).isMenuOpened = s.isMenuOpened := by
  unfold flushTimer
  split <;> rfl

theorem flushTimer_noPending {s : DropdownState}
    (h : s.pendingInstall = false) : flushTimer s = s := by
  unfold flushTimer
  rw [h]
  simp

/-- C5: along every live interaction trace, whenever the menu is closed no
outside-click listener is registered and none is scheduled; an open
transition defers the installation (the listener is not yet registered
when the opening interaction finishes, only scheduled, and the zero-delay
timer then registers it); an outside pointer interaction on an open menu
performs exactly one closeMenu (removing the listener), and a second
outside interaction on the now-closed menu leaves the state entirely
unchanged; teardown removes the listener. -/
theorem claim5_listener_lifecycle (evs : List Ev) (s : DropdownState)
    (hrun : run evs = some s) :
    (s.isMenuOpened = false → s.docListener = false ∧ s.pendingInstall = false) ∧
    (∀ opts, s.isMenuOpened = false →
        step s (Ev.click ClickTarget.trigger opts)
            = some (effectBody opts (openMenu s)) ∧
        (effectBody opts (openMenu s)).docListener = false ∧
        (effectBody opts (openMenu s)).pendingInstall = true ∧
        (flushTimer (effectBody opts (openMenu s))).docListener = true) ∧
    (∀ n opts, s.isMenuOpened = true →
        step s (Ev.click (ClickTarget.elsewhere n) opts)
            = some (closeMenu (flushTimer s)) ∧
        step (closeMenu (flushTimer s)) (Ev.click (ClickTarget.elsewhere n) opts)
            = some (closeMenu (flushTimer s))) ∧
    (unmountCleanup s).docListener = false := by
  have hinv := run_inv hrun
  obtain ⟨hf, hfp⟩ := inv_flushTimer hinv
  refine ⟨fun hc => hinv.2.1 hc, ?_, ?_, rfl⟩
  · intro opts hc
    obtain ⟨hl, hpd⟩ := hinv.2.1 hc
    have hflush : flushTimer s = s := flushTimer_noPending hpd
    refine ⟨?_, (effectBody_fields _ _).2.1.trans hl,
      (effectBody_fields _ _).2.2, ?_⟩
    · simp only [step]
      rw [hflush]
      have e1 : clickTargetPhase ClickTarget.trigger s = openMenu s := by
        unfold clickTargetPhase handlePrincipalButtonClick
        rw [hc]
        simp
      rw [e1, docPhase_silent (show (openMenu s).docListener = false from hl)]
      rw [hc, maybeEffect_opening rfl]
    · unfold flushTimer
      rw [(effectBody_fields opts (openMenu s)).2.2]
      simp
  · intro n opts ho
    have hfopen : (flushTimer s).isMenuOpened = true :=
      (flushTimer_isMenuOpened s).trans ho
    have hl2 : (flushTimer s).docListener = true := by
      rcases hf.2.2 hfopen with h | h
      · exact h
      · rw [hfp] at h
        exact absurd h (by simp)
    constructor
    · simp only [step]
      have e0 : clickTargetPhase (ClickTarget.elsewhere n) (flushTimer s)
          = flushTimer s := rfl
      rw [e0]
      have e2 : docPhase (ClickTarget.elsewhere n) (flushTimer s)
          = closeMenu (flushTimer s) := by
        unfold docPhase
        rw [if_pos hl2]
        rfl
      rw [e2, maybeEffect_stale (Or.inr rfl)]
    · simp only [step]
      have hr : flushTimer (closeMenu (flushTimer s))
          = closeMenu (flushTimer s) :=
        flushTimer_noPending
          (show (closeMenu (flushTimer s)).pendingInstall = false from hfp)
      rw [hr]
      have e0 : clickTargetPhase (ClickTarget.elsewhere n)
          (closeMenu (flushTimer s)) = closeMenu (flushTimer s) := rfl
      rw [e0, docPhase_silent
        (show (closeMenu (flushTimer s)).docListener = false from rfl)]
      rw [maybeEffect_stale (Or.inr
        (show (closeMenu (flushTimer s)).isMenuOpened = false from rfl))]

theorem claim5_witness :
    step (openAndRender ["x"] initState) (Ev.click (ClickTarget.elsewhere 0) [])
        = some (closeMenu (flushTimer (openAndRender ["x"] initState))) ∧
    step (closeMenu (flushTimer (openAndRender ["x"] initState)))
        (Ev.click (ClickTarget.elsewhere 0) [])
        = some (closeMenu (flushTimer (openAndRender ["x"] initState))) :=
  (claim5_listener_lifecycle [Ev.click ClickTarget.trigger ["x"]]
      (openAndRender ["x"] initState) (by decide)).2.2.1 0 [] (by decide)

end Dropdown
